import Mathlib

/-!
# Slice watchface: time-to-geometry pipeline

A shallow embedding of `src/c/slice.c`.  The module-scoped variables
`s_hour_degree` and `s_min_angle` become fields of an explicit `State`; calls
into the host platform and into the vibration collaborators are recorded in
order in `State.calls`; every layer update procedure returns the ordered list
of graphics calls it issues.  C integer conversions are spelled out with
explicit wrap-around functions, `/` and `%` on C `int` are `Int.tdiv` and
`Int.tmod` (truncation towards zero).  Conditional compilation
(`DEMO`, `PBL_ROUND`/`PBL_RECT`, `PBL_COLOR`, `PBL_HEALTH`) is a boolean
argument of the function that contains the `#if`.
-/

namespace Slice

/-! ## C integer conversions -/

/-- Conversion of a C `int` value to `int16_t` (two's complement wrap-around). -/
def toInt16 (x : Int) : Int := (x + 32768) % 65536 - 32768

/-- Conversion of a C `int` value to `uint16_t`. -/
def toUint16 (x : Int) : Int := x % 65536

/-- Result of 32-bit signed arithmetic (`int`, `int32_t`): wrap-around into
`[-2^31, 2^31)`. -/
def toInt32 (x : Int) : Int := (x + 2147483648) % 4294967296 - 2147483648

/-- Values representable in an `int16_t`. -/
def InInt16 (x : Int) : Prop := -32768 ≤ x ∧ x ≤ 32767

instance (x : Int) : Decidable (InInt16 x) := by
  unfold InInt16; exact inferInstance

/-! ## Platform types and macros (`pebble.h`) -/

/-- A point, `GPoint`; both coordinates are `int16_t`. -/
structure GPoint where
  x : Int
  y : Int
  deriving DecidableEq, Repr

/-- A size, `GSize`; both extents are `int16_t`. -/
structure GSize where
  w : Int
  h : Int
  deriving DecidableEq, Repr

/-- A rectangle, `GRect`. -/
structure GRect where
  origin : GPoint
  size : GSize
  deriving DecidableEq, Repr

/-- The colours the watchface uses: the two fixed ones and a configured one. -/
inductive GColor where
  | GColorBlack
  | GColorWhite
  | configured (argb : Nat)
  deriving DecidableEq, Repr

/-- The scale mode argument of the radial and polar functions. -/
inductive GOvalScaleMode where
  | GOvalScaleModeFitCircle
  | GOvalScaleModeFillCircle
  deriving DecidableEq, Repr

/-- The text overflow mode argument of `graphics_draw_text`. -/
inductive GTextOverflowMode where
  | GTextOverflowModeWordWrap
  | GTextOverflowModeTrailingEllipsis
  | GTextOverflowModeFill
  deriving DecidableEq, Repr

/-- The alignment argument of `graphics_draw_text`. -/
inductive GTextAlignment where
  | GTextAlignmentLeft
  | GTextAlignmentCenter
  | GTextAlignmentRight
  deriving DecidableEq, Repr

/-- Modelled from the spec: the platform constant `TRIG_MAX_ANGLE` ("full
turn"), which `pebble.h` defines as `0x10000`; the header is not part of the
repository. -/
def TRIG_MAX_ANGLE : Int := 65536

/-- Modelled from the spec: the platform macro
`DEG_TO_TRIGANGLE(angle) = angle * TRIG_MAX_ANGLE / 360`, evaluated in `int`
arithmetic with truncating division; the header is not part of the
repository. -/
def DEG_TO_TRIGANGLE (angle : Int) : Int :=
  toInt32 (Int.tdiv (toInt32 (angle * TRIG_MAX_ANGLE)) 360)

/-- Modelled from the spec: the platform function `grect_center_point`, the
point `(origin.x + size.w / 2, origin.y + size.h / 2)` with truncating integer
division, stored in `int16_t` coordinates. -/
def grect_center_point (rect : GRect) : GPoint :=
  { x := toInt16 (rect.origin.x + Int.tdiv rect.size.w 2),
    y := toInt16 (rect.origin.y + Int.tdiv rect.size.h 2) }

/-- The platform functions whose results the watchface only passes on. They
are arguments of the embedding. -/
structure Sdk where
  /-- The function `grect_crop(rect, crop_size_px)`. -/
  grect_crop : GRect → Int → GRect
  /-- The function `gpoint_from_polar(rect, scale_mode, angle)`. -/
  gpoint_from_polar : GRect → GOvalScaleMode → Int → GPoint
  /-- The function `grect_centered_from_polar(rect, scale_mode, angle, size)`. -/
  grect_centered_from_polar : GRect → GOvalScaleMode → Int → GSize → GRect
  /-- The C library function `atoi`. -/
  atoi : String → Int

/-- The configuration values read through the `enamel_get_*` accessors. -/
structure Settings where
  CONNECTION_VIBE : String
  HOURLY_VIBE : Bool
  ENABLE_HEALTH : Bool
  COLOR_MINUTE_HAND : GColor
  deriving DecidableEq, Repr

/-- Calls that leave the module towards the host and the vibration
collaborators. -/
inductive Call where
  | connection_vibes_set_state (state : Int)
  | hourly_vibes_set_enabled (enabled : Bool)
  | connection_vibes_enable_health (enabled : Bool)
  | hourly_vibes_enable_health (enabled : Bool)
  /-- The call `layer_mark_dirty(window_get_root_layer(s_window))`. -/
  | layer_mark_dirty_root
  deriving DecidableEq, Repr

/-- Graphics calls issued on a `GContext` by a layer update procedure. -/
inductive DrawCmd where
  | graphics_context_set_fill_color (c : GColor)
  | graphics_context_set_text_color (c : GColor)
  | graphics_context_set_stroke_color (c : GColor)
  | graphics_context_set_stroke_width (width : Int)
  | graphics_fill_radial (rect : GRect) (scale_mode : GOvalScaleMode)
      (inset_thickness : Int) (angle_start angle_end : Int)
  | graphics_draw_text (text : String) (font : Nat) (box : GRect)
      (overflow_mode : GTextOverflowMode) (alignment : GTextAlignment)
  | graphics_draw_line (p0 p1 : GPoint)
  deriving DecidableEq, Repr

/-! ## Module state -/

/-- The module-scoped variables of `slice.c` that the handlers read or write,
and the log of outgoing calls (oldest first). -/
structure State where
  /-- The variable `static uint16_t s_hour_degree`. -/
  s_hour_degree : Int
  /-- The variable `static int32_t s_min_angle`. -/
  s_min_angle : Int
  /-- The variable `static GFont s_font`, a handle. -/
  s_font : Nat
  calls : List Call
  deriving DecidableEq, Repr

/-! ## `grect_from_point` (lines 20-29) -/

/-- The rectangle of the given size whose origin is `point` moved up and left
by half the size. -/
def grect_from_point (point : GPoint) (size : GSize) : GRect :=
  { origin := { x := toInt16 (point.x - Int.tdiv size.w 2),
                y := toInt16 (point.y - Int.tdiv size.h 2) },
    size := size }

/-! ## `settings_handler` (lines 31-40) -/

/-- The calls one run of `settings_handler` issues, in order. -/
def settings_calls (PBL_HEALTH : Bool) (sdk : Sdk) (cfg : Settings) : List Call :=
  [Call.connection_vibes_set_state (sdk.atoi cfg.CONNECTION_VIBE),
   Call.hourly_vibes_set_enabled cfg.HOURLY_VIBE]
  ++ (if PBL_HEALTH then
        [Call.connection_vibes_enable_health cfg.ENABLE_HEALTH,
         Call.hourly_vibes_enable_health cfg.ENABLE_HEALTH]
      else [])
  ++ [Call.layer_mark_dirty_root]

/-- The settings-change handler: pushes the current configuration into the
collaborators and requests a redraw. -/
def settings_handler (PBL_HEALTH : Bool) (sdk : Sdk) (cfg : Settings) (s : State) : State :=
  { s with calls := s.calls ++ settings_calls PBL_HEALTH sdk cfg }

/-! ## `hour_update_proc` (lines 42-69) -/

/-- The value of `bounds.size.w / 2` passed as the `uint16_t inset_thickness`
argument. -/
def half_width (bounds : GRect) : Int := toUint16 (Int.tdiv bounds.size.w 2)

/-- Lines 48-51: the background disc, drawn on rectangular displays only. -/
def dial_background (PBL_ROUND : Bool) (sdk : Sdk) (bounds : GRect) : List DrawCmd :=
  if PBL_ROUND then []
  else
    [DrawCmd.graphics_context_set_fill_color GColor.GColorWhite,
     DrawCmd.graphics_fill_radial (sdk.grect_crop bounds 1)
       GOvalScaleMode.GOvalScaleModeFitCircle (half_width bounds)
       (DEG_TO_TRIGANGLE 0) (DEG_TO_TRIGANGLE 360)]

/-- Line 55: `int32_t angle = TRIG_MAX_ANGLE * i / 12`. -/
def label_angle (i : Int) : Int :=
  toInt32 (Int.tdiv (toInt32 (TRIG_MAX_ANGLE * i)) 12)

/-- Lines 56-59: the text call of one pass through the loop body. -/
def dial_label (PBL_ROUND : Bool) (sdk : Sdk) (bounds : GRect) (font : Nat) (i : Nat) :
    DrawCmd :=
  DrawCmd.graphics_draw_text (toString i) font
    (sdk.grect_centered_from_polar
      (sdk.grect_crop bounds (if PBL_ROUND then 15 else 10))
      GOvalScaleMode.GOvalScaleModeFitCircle (label_angle i) { w := 25, h := 25 })
    GTextOverflowMode.GTextOverflowModeFill GTextAlignment.GTextAlignmentCenter

/-- Lines 53-60: the text colour and the loop `for (int i = 1; i <= 12; i++)`. -/
def dial_labels (PBL_ROUND : Bool) (sdk : Sdk) (bounds : GRect) (font : Nat) : List DrawCmd :=
  DrawCmd.graphics_context_set_text_color GColor.GColorBlack
    :: (List.range' 1 12).map (dial_label PBL_ROUND sdk bounds font)

/-- Lines 63-68: the degree arguments `(start, end)` of the ring's
`graphics_fill_radial` calls, in call order. The operand `s_hour_degree` is a
`uint16_t` promoted to `int`. -/
def ring_arcs (s_hour_degree : Int) : List (Int × Int) :=
  if s_hour_degree > 0 ∧ s_hour_degree < 360 then
    [(0, toInt32 (s_hour_degree - 10)), (toInt32 (s_hour_degree + 10), 360)]
  else
    [(10, 350)]

/-- One ring call: the arc between two degree values on the full bounds. -/
def ring_cmd (bounds : GRect) (arc : Int × Int) : DrawCmd :=
  DrawCmd.graphics_fill_radial bounds GOvalScaleMode.GOvalScaleModeFitCircle
    (half_width bounds) (DEG_TO_TRIGANGLE arc.1) (DEG_TO_TRIGANGLE arc.2)

/-- Lines 62-68: the fill colour and the ring arcs. -/
def hour_ring (bounds : GRect) (s_hour_degree : Int) : List DrawCmd :=
  DrawCmd.graphics_context_set_fill_color GColor.GColorBlack
    :: (ring_arcs s_hour_degree).map (ring_cmd bounds)

/-- The update procedure of the hour layer; `bounds` is
`layer_get_bounds(layer)`. -/
def hour_update_proc (PBL_ROUND : Bool) (sdk : Sdk) (bounds : GRect) (s : State) :
    List DrawCmd :=
  dial_background PBL_ROUND sdk bounds
    ++ dial_labels PBL_ROUND sdk bounds s.s_font
    ++ hour_ring bounds s.s_hour_degree

/-! ## `minute_update_proc` (lines 71-83) -/

/-- The value of `PBL_IF_COLOR_ELSE(enamel_get_COLOR_MINUTE_HAND(), GColorWhite)`. -/
def accent_color (PBL_COLOR : Bool) (cfg : Settings) : GColor :=
  if PBL_COLOR then cfg.COLOR_MINUTE_HAND else GColor.GColorWhite

/-- The update procedure of the minute layer: the hand, drawn twice. -/
def minute_update_proc (PBL_COLOR : Bool) (sdk : Sdk) (cfg : Settings) (bounds : GRect)
    (s : State) : List DrawCmd :=
  let point := sdk.gpoint_from_polar bounds GOvalScaleMode.GOvalScaleModeFitCircle s.s_min_angle
  [DrawCmd.graphics_context_set_stroke_color GColor.GColorBlack,
   DrawCmd.graphics_context_set_stroke_width 6,
   DrawCmd.graphics_draw_line (grect_center_point bounds) point,
   DrawCmd.graphics_context_set_stroke_color (accent_color PBL_COLOR cfg),
   DrawCmd.graphics_context_set_stroke_width 4,
   DrawCmd.graphics_draw_line (grect_center_point bounds) point]

/-! ## `center_update_proc` (lines 85-94) -/

/-- Line 91: the rectangle of the inner dot. -/
def center_dot (bounds : GRect) : GRect :=
  grect_from_point (grect_center_point bounds) { w := 5, h := 5 }

/-- The update procedure of the hub layer. -/
def center_update_proc (PBL_COLOR : Bool) (cfg : Settings) (bounds : GRect) : List DrawCmd :=
  [DrawCmd.graphics_context_set_fill_color (accent_color PBL_COLOR cfg),
   DrawCmd.graphics_fill_radial bounds GOvalScaleMode.GOvalScaleModeFitCircle
     (toUint16 bounds.size.w) 0 (DEG_TO_TRIGANGLE 360),
   DrawCmd.graphics_context_set_fill_color GColor.GColorBlack,
   DrawCmd.graphics_fill_radial (center_dot bounds) GOvalScaleMode.GOvalScaleModeFitCircle
     (toUint16 (center_dot bounds).size.w) 0 (DEG_TO_TRIGANGLE 360)]

/-! ## `tick_handler` (lines 96-106) -/

/-- Line 99: the value stored in `s_hour_degree` from `tm_hour`. -/
def hour_degree_of (tm_hour : Int) : Int :=
  toUint16 (toInt32 ((if tm_hour > 12 then Int.tmod tm_hour 12 else tm_hour) * 30))

/-- Line 100: the value stored in `s_min_angle` from `tm_min`. -/
def min_angle_of (tm_min : Int) : Int :=
  toInt32 (Int.tdiv (toInt32 (TRIG_MAX_ANGLE * tm_min)) 60)

/-- The tick handler. With `DEMO` the two variables get the constants of lines
102-103, otherwise they are computed from `tick_time`. -/
def tick_handler (DEMO : Bool) (tm_hour tm_min : Int) (s : State) : State :=
  { s with
    s_hour_degree := if DEMO then toUint16 (11 * 30) else hour_degree_of tm_hour,
    s_min_angle := if DEMO then toInt32 (Int.tdiv (toInt32 (TRIG_MAX_ANGLE * 10)) 60)
                   else min_angle_of tm_min,
    calls := s.calls ++ [Call.layer_mark_dirty_root] }

/-! ## `window_load` (lines 123-125) -/

/-- Line 123: the frame handed to `layer_create` for the hub layer. -/
def center_layer_frame (root_bounds : GRect) : GRect :=
  grect_from_point (grect_center_point root_bounds) { w := 11, h := 11 }

/-- Modelled from the spec: the platform's `layer_get_bounds` on a layer made
by `layer_create(frame)`: origin `(0, 0)` and the size of the frame. -/
def layer_bounds_of_frame (frame : GRect) : GRect :=
  { origin := { x := 0, y := 0 }, size := frame.size }

/-! ## Vocabulary of the properties -/

/-- The state in which no handler has run yet. -/
def State.initial : State :=
  { s_hour_degree := 0, s_min_angle := 0, s_font := 0, calls := [] }

/-- The calls logged between an earlier state and a later one. -/
def new_calls (before after : State) : List Call :=
  after.calls.drop before.calls.length

/-- Recognises a call of `connection_vibes_set_state`. -/
def Call.is_set_state : Call → Bool
  | Call.connection_vibes_set_state _ => true
  | _ => false

/-- Recognises a call of `hourly_vibes_set_enabled`. -/
def Call.is_set_enabled : Call → Bool
  | Call.hourly_vibes_set_enabled _ => true
  | _ => false

/-- Recognises a redraw request on the root layer. -/
def Call.is_mark_dirty : Call → Bool
  | Call.layer_mark_dirty_root => true
  | _ => false

/-- An arc drawn from `arc.1` to `arc.2` degrees contains the angle `θ`. -/
def arc_covers (arc : Int × Int) (θ : ℚ) : Prop := (arc.1 : ℚ) ≤ θ ∧ θ ≤ (arc.2 : ℚ)

instance (arc : Int × Int) (θ : ℚ) : Decidable (arc_covers arc θ) := by
  unfold arc_covers; exact inferInstance

/-- An arc covers the direction `θ` of the circle when it contains `θ` or
`θ + 360`. -/
def arc_covers_dir (arc : Int × Int) (θ : ℚ) : Prop :=
  arc_covers arc θ ∨ arc_covers arc (θ + 360)

instance (arc : Int × Int) (θ : ℚ) : Decidable (arc_covers_dir arc θ) := by
  unfold arc_covers_dir; exact inferInstance

/-- Some arc of the list covers the direction `θ`. -/
def ring_covers (arcs : List (Int × Int)) (θ : ℚ) : Prop :=
  ∃ arc ∈ arcs, arc_covers_dir arc θ

instance (arcs : List (Int × Int)) (θ : ℚ) : Decidable (ring_covers arcs θ) := by
  unfold ring_covers; exact inferInstance

/-- The direction `θ` is less than 10 degrees away from `d` on the circle:
the open interval of width 20 centred on `d`, taken modulo a full turn. -/
def in_gap (d : Int) (θ : ℚ) : Prop :=
  ((d : ℚ) - 10 < θ ∧ θ < (d : ℚ) + 10) ∨ ((d : ℚ) - 10 < θ - 360 ∧ θ - 360 < (d : ℚ) + 10)

instance (d : Int) (θ : ℚ) : Decidable (in_gap d θ) := by
  unfold in_gap; exact inferInstance

/-- The angle arguments `(angle_start, angle_end)` the ring's
`graphics_fill_radial` calls receive, as `ring_cmd` passes them. -/
def trig_arcs (s_hour_degree : Int) : List (Int × Int) :=
  (ring_arcs s_hour_degree).map (fun arc => (DEG_TO_TRIGANGLE arc.1, DEG_TO_TRIGANGLE arc.2))

/-- Some arc, given by its angle arguments, covers the angle `a` of
`[0, TRIG_MAX_ANGLE)`, end points included. -/
def trig_covers (arcs : List (Int × Int)) (a : Int) : Prop :=
  ∃ arc ∈ arcs, (arc.1 ≤ a ∧ a ≤ arc.2)
    ∨ (arc.1 ≤ a + TRIG_MAX_ANGLE ∧ a + TRIG_MAX_ANGLE ≤ arc.2)

instance (arcs : List (Int × Int)) (a : Int) : Decidable (trig_covers arcs a) := by
  unfold trig_covers; exact inferInstance

/-- The numeral of the dial that stands for an hour of the day: 12 for
midnight and noon, otherwise the hour modulo 12. -/
def label_of_hour (hour : Int) : Int :=
  if hour % 12 = 0 then 12 else hour % 12

/-- The ring arcs a list of graphics calls draws: the angle arguments
`(angle_start, angle_end)` of every `graphics_fill_radial` call issued while
the fill colour last selected in the list is black, in call order. The flag
tells whether black is selected when the list starts. -/
def ring_scan (black : Bool) : List DrawCmd → List (Int × Int)
  | [] => []
  | DrawCmd.graphics_context_set_fill_color c :: rest =>
      ring_scan (decide (c = GColor.GColorBlack)) rest
  | DrawCmd.graphics_fill_radial _ _ _ a e :: rest =>
      if black then (a, e) :: ring_scan black rest else ring_scan black rest
  | DrawCmd.graphics_context_set_text_color _ :: rest => ring_scan black rest
  | DrawCmd.graphics_context_set_stroke_color _ :: rest => ring_scan black rest
  | DrawCmd.graphics_context_set_stroke_width _ :: rest => ring_scan black rest
  | DrawCmd.graphics_draw_text _ _ _ _ _ :: rest => ring_scan black rest
  | DrawCmd.graphics_draw_line _ _ :: rest => ring_scan black rest

/-- The ring arcs drawn by the calls of one update procedure, which starts
with no fill colour of its own selected. -/
def ring_fills (cmds : List DrawCmd) : List (Int × Int) := ring_scan false cmds

/-- The numerals a list of graphics calls draws: the text and the box of
every `graphics_draw_text` call, in call order. -/
def text_calls : List DrawCmd → List (String × GRect)
  | [] => []
  | DrawCmd.graphics_draw_text text _ box _ _ :: rest => (text, box) :: text_calls rest
  | DrawCmd.graphics_context_set_fill_color _ :: rest => text_calls rest
  | DrawCmd.graphics_context_set_text_color _ :: rest => text_calls rest
  | DrawCmd.graphics_context_set_stroke_color _ :: rest => text_calls rest
  | DrawCmd.graphics_context_set_stroke_width _ :: rest => text_calls rest
  | DrawCmd.graphics_fill_radial _ _ _ _ _ :: rest => text_calls rest
  | DrawCmd.graphics_draw_line _ _ :: rest => text_calls rest

/-- The angle arguments of the ring arcs between the given degree values. -/
def to_trig (arcs : List (Int × Int)) : List (Int × Int) :=
  arcs.map (fun arc => (arc.1 * TRIG_MAX_ANGLE / 360, arc.2 * TRIG_MAX_ANGLE / 360))

/-! ## Auxiliary facts -/

theorem toInt32_of_range (x : Int) (h0 : -2147483648 ≤ x) (h1 : x < 2147483648) :
    toInt32 x = x := by
  unfold toInt32; omega

theorem min_angle_of_closed (m : Int) (h0 : 0 ≤ m) (h1 : m ≤ 59) :
    min_angle_of m = (65536 * m) / 60 := by
  unfold min_angle_of TRIG_MAX_ANGLE
  rw [toInt32_of_range (65536 * m) (by omega) (by omega),
    Int.tdiv_eq_ediv (by omega) (by omega)]
  exact toInt32_of_range _ (by omega) (by omega)

theorem ring_arcs_zero : ring_arcs 0 = [(10, 350)] := by decide

theorem ring_arcs_pos (d : Int) (h0 : 0 < d) (h1 : d < 360) :
    ring_arcs d = [(0, d - 10), (d + 10, 360)] := by
  unfold ring_arcs
  rw [if_pos ⟨h0, h1⟩, toInt32_of_range _ (by omega) (by omega),
    toInt32_of_range _ (by omega) (by omega)]

theorem gap_zero (θ : ℚ) (h0 : 0 ≤ θ) (h1 : θ < 360) :
    ¬ ring_covers (ring_arcs 0) θ ↔ in_gap 0 θ := by
  rw [ring_arcs_zero]
  simp only [ring_covers, arc_covers_dir, arc_covers, in_gap, List.mem_singleton, exists_eq_left]
  push_cast
  constructor
  · intro h
    by_cases h2 : θ < 10
    · left; constructor <;> linarith
    · right
      refine ⟨?_, by linarith⟩
      by_contra h3
      exact h (Or.inl ⟨by linarith, by linarith⟩)
  · rintro (⟨_, h⟩ | ⟨h, _⟩) <;> rintro (⟨a, b⟩ | ⟨a, b⟩) <;> linarith

theorem gap_pos (d : Int) (hd0 : 30 ≤ d) (hd1 : d ≤ 330) (θ : ℚ) (h0 : 0 ≤ θ) (h1 : θ < 360) :
    ¬ ring_covers (ring_arcs d) θ ↔ in_gap d θ := by
  rw [ring_arcs_pos d (by omega) (by omega)]
  have e0 : (30 : ℚ) ≤ d := by exact_mod_cast hd0
  have e1 : (d : ℚ) ≤ 330 := by exact_mod_cast hd1
  simp only [ring_covers, arc_covers_dir, arc_covers, in_gap, List.mem_cons, List.mem_singleton,
    exists_eq_or_imp, exists_eq_left, List.not_mem_nil, false_and, exists_false, or_false]
  push_cast
  constructor
  · intro h
    left
    constructor
    · by_contra h3
      exact h (Or.inl (Or.inl ⟨h0, by linarith⟩))
    · by_contra h3
      exact h (Or.inr (Or.inl ⟨by linarith, by linarith⟩))
  · rintro (⟨a, b⟩ | ⟨a, b⟩)
    · rintro ((⟨_, c⟩ | ⟨_, c⟩) | (⟨c, _⟩ | ⟨c, _⟩)) <;> linarith
    · linarith

theorem hour_after_tick (h m : Int) (s : State) :
    (tick_handler false h m s).s_hour_degree = hour_degree_of h := rfl

theorem min_after_tick (h m : Int) (s : State) :
    (tick_handler false h m s).s_min_angle = min_angle_of m := rfl

theorem range_1_12 : List.range' 1 12 = [1, 2, 3, 4, 5, 6, 7, 8, 9, 10, 11, 12] := by decide

theorem ring_scan_ring (bounds : GRect) (arcs : List (Int × Int)) :
    ring_scan true (arcs.map (ring_cmd bounds))
      = arcs.map (fun arc => (DEG_TO_TRIGANGLE arc.1, DEG_TO_TRIGANGLE arc.2)) := by
  induction arcs with
  | nil => rfl
  | cons arc rest ih => simp [ring_cmd, ring_scan] at ih ⊢; exact ih

theorem text_calls_ring (bounds : GRect) (arcs : List (Int × Int)) :
    text_calls (arcs.map (ring_cmd bounds)) = [] := by
  induction arcs with
  | nil => rfl
  | cons arc rest ih => simp [ring_cmd, text_calls] at ih ⊢; exact ih

theorem ring_fills_hour_update_proc (PBL_ROUND : Bool) (sdk : Sdk) (bounds : GRect)
    (s : State) :
    ring_fills (hour_update_proc PBL_ROUND sdk bounds s) = trig_arcs s.s_hour_degree := by
  have h := ring_scan_ring bounds (ring_arcs s.s_hour_degree)
  cases PBL_ROUND <;>
    simp [ring_fills, hour_update_proc, dial_background, dial_labels, dial_label, hour_ring,
      range_1_12, ring_scan, trig_arcs, h]

theorem text_calls_hour_update_proc (PBL_ROUND : Bool) (sdk : Sdk) (bounds : GRect)
    (s : State) :
    text_calls (hour_update_proc PBL_ROUND sdk bounds s)
      = ([(1, "1"), (2, "2"), (3, "3"), (4, "4"), (5, "5"), (6, "6"), (7, "7"), (8, "8"),
          (9, "9"), (10, "10"), (11, "11"), (12, "12")] : List (Int × String)).map
          (fun label =>
            (label.2,
              sdk.grect_centered_from_polar
                (sdk.grect_crop bounds (if PBL_ROUND then 15 else 10))
                GOvalScaleMode.GOvalScaleModeFitCircle
                (TRIG_MAX_ANGLE * label.1 / 12) { w := 25, h := 25 })) := by
  have h := text_calls_ring bounds (ring_arcs s.s_hour_degree)
  have e : ∀ j : Int, 1 ≤ j → j ≤ 12 → label_angle j = TRIG_MAX_ANGLE * j / 12 := by
    intro j j0 j1
    interval_cases j <;> decide
  cases PBL_ROUND <;>
    simp [hour_update_proc, dial_background, dial_labels, dial_label, hour_ring,
      range_1_12, text_calls, h, e] <;>
    exact ⟨rfl, rfl, rfl, rfl, rfl, rfl, rfl, rfl, rfl, rfl, rfl, rfl⟩

theorem trig_arcs_hour (hour : Int) (h0 : 0 ≤ hour) (h1 : hour ≤ 23) :
    trig_arcs (hour_degree_of hour)
      = to_trig (if hour % 12 = 0 then [(10, 350)]
          else [(0, (hour % 12) * 30 - 10), ((hour % 12) * 30 + 10, 360)]) := by
  interval_cases hour <;> decide


theorem deg_closed (x : Int) (h0 : 0 ≤ x) (h1 : x ≤ 360) :
    DEG_TO_TRIGANGLE x = x * TRIG_MAX_ANGLE / 360 := by
  unfold DEG_TO_TRIGANGLE TRIG_MAX_ANGLE
  rw [toInt32_of_range (x * 65536) (by omega) (by omega),
    Int.tdiv_eq_ediv (by omega) (by omega)]
  exact toInt32_of_range _ (by omega) (by omega)

/-! ## Time update -/

/-- Claim C1, as the code has it: for every hour in [0,23] the non-DEMO
`tick_handler` stores `(hour > 12 ? hour % 12 : hour) * 30` in `s_hour_degree`.
For every hour other than 12 that is `(hour mod 12) * 30`, one of
0, 30, ..., 330; hour 0 gives 0 and hour 12 gives 360. -/
theorem tick_handler_hour_degree (hour tm_min : Int) (s : State)
    (h0 : 0 ≤ hour) (h1 : hour ≤ 23) :
    (tick_handler false hour tm_min s).s_hour_degree
        = (if hour > 12 then hour % 12 else hour) * 30
      ∧ (hour ≠ 12 →
          (tick_handler false hour tm_min s).s_hour_degree = (hour % 12) * 30
          ∧ (tick_handler false hour tm_min s).s_hour_degree
              ∈ ([0, 30, 60, 90, 120, 150, 180, 210, 240, 270, 300, 330] : List Int))
      ∧ (tick_handler false 0 tm_min s).s_hour_degree = 0
      ∧ (tick_handler false 12 tm_min s).s_hour_degree = 360 := by
  simp only [hour_after_tick]
  interval_cases hour <;> decide

/-- Claim C1 at hour 23: the stored value is 330. -/
theorem tick_handler_hour_degree_witness :
    (0 : Int) ≤ 23 ∧ (23 : Int) ≤ 23
      ∧ (tick_handler false 23 59 State.initial).s_hour_degree = (23 % 12) * 30 :=
  ⟨by decide, by decide,
    ((tick_handler_hour_degree 23 59 State.initial (by decide) (by decide)).2.1
      (by decide)).1⟩

/-- Claim C1 as written fails at noon: with hour 12 the non-DEMO `tick_handler`
stores 360, which is neither `(12 mod 12) * 30 = 0` nor one of 0, 30, ..., 330. -/
theorem noon_stores_360 :
    (tick_handler false 12 0 State.initial).s_hour_degree = 360
      ∧ (tick_handler false 12 0 State.initial).s_hour_degree ≠ (12 % 12) * 30
      ∧ (tick_handler false 12 0 State.initial).s_hour_degree
          ∉ ([0, 30, 60, 90, 120, 150, 180, 210, 240, 270, 300, 330] : List Int)
      ∧ ¬ (∀ hour : Int, 0 ≤ hour → hour ≤ 23 → ∀ (tm_min : Int) (s : State),
            (tick_handler false hour tm_min s).s_hour_degree = (hour % 12) * 30) := by
  refine ⟨by decide, by decide, by decide, fun h => ?_⟩
  exact absurd (h 12 (by decide) (by decide) 0 State.initial) (by decide)

/-- Claim C2: for every minute in [0,59] the non-DEMO `tick_handler` stores
`floor(TRIG_MAX_ANGLE * minute / 60)` in `s_min_angle`; the 32-bit product
does not overflow; the value is 0 at minute 0, strictly increasing in the
minute, and lies in `[0, TRIG_MAX_ANGLE)`. -/
theorem tick_handler_min_angle (tm_hour minute : Int) (s : State)
    (h0 : 0 ≤ minute) (h1 : minute ≤ 59) :
    (tick_handler false tm_hour minute s).s_min_angle
        = ⌊((TRIG_MAX_ANGLE * minute : ℤ) : ℚ) / 60⌋
      ∧ (tick_handler false tm_hour minute s).s_min_angle = (TRIG_MAX_ANGLE * minute) / 60
      ∧ TRIG_MAX_ANGLE = 65536
      ∧ (-2147483648 ≤ TRIG_MAX_ANGLE * minute ∧ TRIG_MAX_ANGLE * minute ≤ 2147483647)
      ∧ toInt32 (TRIG_MAX_ANGLE * minute) = TRIG_MAX_ANGLE * minute
      ∧ (tick_handler false tm_hour 0 s).s_min_angle = 0
      ∧ (∀ later : Int, minute < later → later ≤ 59 → ∀ (tm_hour2 : Int) (s2 : State),
          (tick_handler false tm_hour minute s).s_min_angle
            < (tick_handler false tm_hour2 later s2).s_min_angle)
      ∧ 0 ≤ (tick_handler false tm_hour minute s).s_min_angle
      ∧ (tick_handler false tm_hour minute s).s_min_angle < TRIG_MAX_ANGLE := by
  simp only [min_after_tick]
  rw [min_angle_of_closed minute h0 h1]
  have hf : ⌊((TRIG_MAX_ANGLE * minute : ℤ) : ℚ) / 60⌋ = 65536 * minute / 60 := by
    have := Rat.floor_intCast_div_natCast (65536 * minute) 60
    simpa [TRIG_MAX_ANGLE] using this
  refine ⟨hf.symm, ?_, rfl, ?_, ?_, by decide, ?_, ?_, ?_⟩
  · simp [TRIG_MAX_ANGLE]
  · unfold TRIG_MAX_ANGLE; omega
  · unfold TRIG_MAX_ANGLE; exact toInt32_of_range _ (by omega) (by omega)
  · intro later hl hl2 _ _
    rw [min_angle_of_closed later (by omega) hl2]
    omega
  · omega
  · unfold TRIG_MAX_ANGLE; omega

/-- Claim C2 at minute 59: the stored angle is 64443, below the full turn. -/
theorem tick_handler_min_angle_witness :
    (0 : Int) ≤ 59 ∧ (59 : Int) ≤ 59
      ∧ (tick_handler false 7 59 State.initial).s_min_angle = (TRIG_MAX_ANGLE * 59) / 60
      ∧ (tick_handler false 7 59 State.initial).s_min_angle = 64443 :=
  ⟨by decide, by decide,
    (tick_handler_min_angle 7 59 State.initial (by decide) (by decide)).2.1, by decide⟩

/-! ## Hour ring -/

/-- Claim C3: for every `s_hour_degree` in 0, 30, ..., 330 the ring of
`hour_update_proc` is the single arc [10, 350] when the value is 0 and the two
arcs [0, d - 10] and [d + 10, 360] otherwise. Every arc has start < end within
[0, 360]; the arcs are disjoint as intervals, and no direction strictly
between 0 and 360 is covered twice; a direction is left uncovered exactly when
it is less than 10 degrees away from `s_hour_degree` on the circle; the arcs
span 340 degrees together, which leaves a gap of width 20. In every state
whose `s_hour_degree` is that value, `hour_update_proc` issues the background
and label calls and then exactly these ring calls, and the black radial fills
in its output are exactly these arcs, converted to angle units. -/
theorem hour_ring_gap_policy (d : Int)
    (hd : d ∈ ([0, 30, 60, 90, 120, 150, 180, 210, 240, 270, 300, 330] : List Int))
    (bounds : GRect) :
    ring_arcs d = (if d = 0 then [(10, 350)] else [(0, d - 10), (d + 10, 360)])
      ∧ hour_ring bounds d
          = DrawCmd.graphics_context_set_fill_color GColor.GColorBlack
            :: (if d = 0 then
                  [DrawCmd.graphics_fill_radial bounds GOvalScaleMode.GOvalScaleModeFitCircle
                    (half_width bounds) (DEG_TO_TRIGANGLE 10) (DEG_TO_TRIGANGLE 350)]
                else
                  [DrawCmd.graphics_fill_radial bounds GOvalScaleMode.GOvalScaleModeFitCircle
                    (half_width bounds) (DEG_TO_TRIGANGLE 0) (DEG_TO_TRIGANGLE (d - 10)),
                   DrawCmd.graphics_fill_radial bounds GOvalScaleMode.GOvalScaleModeFitCircle
                    (half_width bounds) (DEG_TO_TRIGANGLE (d + 10)) (DEG_TO_TRIGANGLE 360)])
      ∧ (∀ arc ∈ ring_arcs d, 0 ≤ arc.1 ∧ arc.1 < arc.2 ∧ arc.2 ≤ 360)
      ∧ (ring_arcs d).Pairwise (fun a b => a.2 < b.1)
      ∧ (ring_arcs d).Pairwise (fun a b => ∀ θ : ℚ, 0 < θ → θ < 360 →
          ¬ (arc_covers_dir a θ ∧ arc_covers_dir b θ))
      ∧ (∀ θ : ℚ, 0 ≤ θ → θ < 360 → (¬ ring_covers (ring_arcs d) θ ↔ in_gap d θ))
      ∧ ((ring_arcs d).map (fun a => a.2 - a.1)).sum = 340
      ∧ (∀ (PBL_ROUND : Bool) (sdk : Sdk) (s : State),
          hour_update_proc PBL_ROUND sdk bounds { s with s_hour_degree := d }
            = dial_background PBL_ROUND sdk bounds
              ++ dial_labels PBL_ROUND sdk bounds s.s_font
              ++ DrawCmd.graphics_context_set_fill_color GColor.GColorBlack
                :: (if d = 0 then
                      [DrawCmd.graphics_fill_radial bounds
                        GOvalScaleMode.GOvalScaleModeFitCircle
                        (toUint16 (Int.tdiv bounds.size.w 2))
                        (10 * TRIG_MAX_ANGLE / 360) (350 * TRIG_MAX_ANGLE / 360)]
                    else
                      [DrawCmd.graphics_fill_radial bounds
                        GOvalScaleMode.GOvalScaleModeFitCircle
                        (toUint16 (Int.tdiv bounds.size.w 2))
                        (0 * TRIG_MAX_ANGLE / 360) ((d - 10) * TRIG_MAX_ANGLE / 360),
                       DrawCmd.graphics_fill_radial bounds
                        GOvalScaleMode.GOvalScaleModeFitCircle
                        (toUint16 (Int.tdiv bounds.size.w 2))
                        ((d + 10) * TRIG_MAX_ANGLE / 360) (360 * TRIG_MAX_ANGLE / 360)]))
      ∧ (∀ (PBL_ROUND : Bool) (sdk : Sdk) (s : State),
          ring_fills (hour_update_proc PBL_ROUND sdk bounds { s with s_hour_degree := d })
            = to_trig (if d = 0 then [(10, 350)] else [(0, d - 10), (d + 10, 360)])) := by
  have hc : d = 0 ∨ (30 ≤ d ∧ d ≤ 330) := by
    simp only [List.mem_cons, List.mem_singleton, List.not_mem_nil, or_false] at hd
    omega
  have harcs : ring_arcs d = (if d = 0 then [(10, 350)] else [(0, d - 10), (d + 10, 360)]) := by
    rcases hc with rfl | ⟨hlo, hhi⟩
    · decide
    · rw [ring_arcs_pos d (by omega) (by omega), if_neg (by omega)]
  have hdeg : ∀ x : Int, 0 ≤ x → x ≤ 360 → DEG_TO_TRIGANGLE x = x * TRIG_MAX_ANGLE / 360 :=
    deg_closed
  have hring : hour_ring bounds d
      = DrawCmd.graphics_context_set_fill_color GColor.GColorBlack
        :: (if d = 0 then
              [DrawCmd.graphics_fill_radial bounds GOvalScaleMode.GOvalScaleModeFitCircle
                (half_width bounds) (DEG_TO_TRIGANGLE 10) (DEG_TO_TRIGANGLE 350)]
            else
              [DrawCmd.graphics_fill_radial bounds GOvalScaleMode.GOvalScaleModeFitCircle
                (half_width bounds) (DEG_TO_TRIGANGLE 0) (DEG_TO_TRIGANGLE (d - 10)),
               DrawCmd.graphics_fill_radial bounds GOvalScaleMode.GOvalScaleModeFitCircle
                (half_width bounds) (DEG_TO_TRIGANGLE (d + 10)) (DEG_TO_TRIGANGLE 360)]) := by
    rw [hour_ring, harcs]
    split <;> simp [ring_cmd]
  have hproc : ∀ (PBL_ROUND : Bool) (sdk : Sdk) (s : State),
      hour_update_proc PBL_ROUND sdk bounds { s with s_hour_degree := d }
        = dial_background PBL_ROUND sdk bounds
          ++ dial_labels PBL_ROUND sdk bounds s.s_font
          ++ DrawCmd.graphics_context_set_fill_color GColor.GColorBlack
            :: (if d = 0 then
                  [DrawCmd.graphics_fill_radial bounds
                    GOvalScaleMode.GOvalScaleModeFitCircle
                    (toUint16 (Int.tdiv bounds.size.w 2))
                    (10 * TRIG_MAX_ANGLE / 360) (350 * TRIG_MAX_ANGLE / 360)]
                else
                  [DrawCmd.graphics_fill_radial bounds
                    GOvalScaleMode.GOvalScaleModeFitCircle
                    (toUint16 (Int.tdiv bounds.size.w 2))
                    (0 * TRIG_MAX_ANGLE / 360) ((d - 10) * TRIG_MAX_ANGLE / 360),
                   DrawCmd.graphics_fill_radial bounds
                    GOvalScaleMode.GOvalScaleModeFitCircle
                    (toUint16 (Int.tdiv bounds.size.w 2))
                    ((d + 10) * TRIG_MAX_ANGLE / 360) (360 * TRIG_MAX_ANGLE / 360)]) := by
    intro PBL_ROUND sdk s
    show _ ++ _ ++ hour_ring bounds d = _
    rw [hring]
    rcases hc with rfl | ⟨hlo, hhi⟩
    · rfl
    · rw [if_neg (by omega), if_neg (by omega), hdeg 0 (by omega) (by omega),
        hdeg (d - 10) (by omega) (by omega), hdeg (d + 10) (by omega) (by omega),
        hdeg 360 (by omega) (by omega)]
      rfl
  have hfills : ∀ (PBL_ROUND : Bool) (sdk : Sdk) (s : State),
      ring_fills (hour_update_proc PBL_ROUND sdk bounds { s with s_hour_degree := d })
        = to_trig (if d = 0 then [(10, 350)] else [(0, d - 10), (d + 10, 360)]) := by
    intro PBL_ROUND sdk s
    rw [ring_fills_hour_update_proc]
    show trig_arcs d = _
    rw [trig_arcs, harcs]
    rcases hc with rfl | ⟨hlo, hhi⟩
    · decide
    · rw [if_neg (by omega)]
      simp only [to_trig, List.map_cons, List.map_nil]
      rw [hdeg 0 (by omega) (by omega),
        hdeg (d - 10) (by omega) (by omega), hdeg (d + 10) (by omega) (by omega),
        hdeg 360 (by omega) (by omega)]
  refine ⟨harcs, hring, ?_, ?_, ?_, ?_, ?_, hproc, hfills⟩
  · rcases hc with rfl | ⟨hlo, hhi⟩
    · decide
    · rw [ring_arcs_pos d (by omega) (by omega)]
      intro arc harc
      simp only [List.mem_cons, List.mem_singleton, List.not_mem_nil, or_false] at harc
      rcases harc with rfl | rfl <;> simp <;> omega
  · rcases hc with rfl | ⟨hlo, hhi⟩
    · simp [ring_arcs_zero]
    · rw [ring_arcs_pos d (by omega) (by omega)]
      simp
      omega
  · rcases hc with rfl | ⟨hlo, hhi⟩
    · simp [ring_arcs_zero]
    · rw [ring_arcs_pos d (by omega) (by omega)]
      have e0 : (30 : ℚ) ≤ d := by exact_mod_cast hlo
      have e1 : (d : ℚ) ≤ 330 := by exact_mod_cast hhi
      simp only [List.pairwise_cons, List.mem_singleton, forall_eq, List.not_mem_nil,
        false_implies, implies_true, List.Pairwise.nil, and_true, arc_covers_dir, arc_covers]
      push_cast
      rintro θ p0 p1 ⟨(⟨_, a⟩ | ⟨_, a⟩), (⟨b, _⟩ | ⟨b, _⟩)⟩ <;> linarith
  · rcases hc with rfl | ⟨hlo, hhi⟩
    · exact gap_zero
    · exact gap_pos d hlo hhi
  · rcases hc with rfl | ⟨hlo, hhi⟩
    · decide
    · rw [ring_arcs_pos d (by omega) (by omega)]
      simp
      omega

/-- Claim C3 at 150 degrees: the two arcs are [0, 140] and [160, 360], and a
state holding 150 has exactly these two black radial fills drawn, from 0 to
25486 and from 29127 to 65536 in angle units. -/
theorem hour_ring_gap_policy_witness :
    (150 : Int) ∈ ([0, 30, 60, 90, 120, 150, 180, 210, 240, 270, 300, 330] : List Int)
      ∧ ring_arcs 150 = [(0, 140), (160, 360)]
      ∧ ring_fills (hour_update_proc false
            ⟨fun r _ => r, fun r _ _ => r.origin, fun r _ _ _ => r, fun _ => 0⟩
            ⟨⟨0, 0⟩, ⟨144, 168⟩⟩ { State.initial with s_hour_degree := 150 })
          = [(0, 25486), (29127, 65536)] :=
  ⟨by decide,
    (hour_ring_gap_policy 150 (by decide) ⟨⟨0, 0⟩, ⟨144, 168⟩⟩).1.trans (by decide),
    ((hour_ring_gap_policy 150 (by decide) ⟨⟨0, 0⟩, ⟨144, 168⟩⟩).2.2.2.2.2.2.2.2 false
      ⟨fun r _ => r, fun r _ _ => r.origin, fun r _ _ _ => r, fun _ => 0⟩
      State.initial).trans (by decide)⟩

/-- Claim C9: for every hour in [0,23] the ring arcs that `hour_update_proc`
draws after the non-DEMO `tick_handler` ran with that hour are the ones it
draws after `tick_handler` ran with `hour mod 12`, and so is its whole output.
The black radial fills in its output are the single arc [10, 350] when
`hour mod 12 = 0` and otherwise the arcs [0, 30 k - 10] and [30 k + 10, 360]
for `k = hour mod 12`, in angle units; at hour 12 and at hour 0 they are the
single arc [10, 350]. -/
theorem hour_ring_mod_12 (hour : Int) (h0 : 0 ≤ hour) (h1 : hour ≤ 23)
    (tm_min tm_min2 : Int) (s : State) (PBL_ROUND : Bool) (sdk : Sdk) (bounds : GRect) :
    ring_arcs (tick_handler false hour tm_min s).s_hour_degree
        = ring_arcs (tick_handler false (hour % 12) tm_min2 s).s_hour_degree
      ∧ hour_update_proc PBL_ROUND sdk bounds (tick_handler false hour tm_min s)
        = hour_update_proc PBL_ROUND sdk bounds (tick_handler false (hour % 12) tm_min2 s)
      ∧ ring_arcs (tick_handler false 12 tm_min s).s_hour_degree = [(10, 350)]
      ∧ ring_arcs (tick_handler false 0 tm_min s).s_hour_degree = [(10, 350)]
      ∧ ring_fills (hour_update_proc PBL_ROUND sdk bounds (tick_handler false hour tm_min s))
        = to_trig (if hour % 12 = 0 then [(10, 350)]
            else [(0, (hour % 12) * 30 - 10), ((hour % 12) * 30 + 10, 360)])
      ∧ ring_fills (hour_update_proc PBL_ROUND sdk bounds (tick_handler false hour tm_min s))
        = ring_fills
            (hour_update_proc PBL_ROUND sdk bounds (tick_handler false (hour % 12) tm_min2 s))
      ∧ ring_fills (hour_update_proc PBL_ROUND sdk bounds (tick_handler false 12 tm_min s))
        = [(10 * TRIG_MAX_ANGLE / 360, 350 * TRIG_MAX_ANGLE / 360)]
      ∧ ring_fills (hour_update_proc PBL_ROUND sdk bounds (tick_handler false 0 tm_min s))
        = [(10 * TRIG_MAX_ANGLE / 360, 350 * TRIG_MAX_ANGLE / 360)] := by
  have key : ring_arcs (hour_degree_of hour) = ring_arcs (hour_degree_of (hour % 12)) := by
    interval_cases hour <;> decide
  have noon : ring_arcs (hour_degree_of 12) = [(10, 350)] := by decide
  have midnight : ring_arcs (hour_degree_of 0) = [(10, 350)] := by decide
  have noon_fills : trig_arcs (hour_degree_of 12)
      = [(10 * TRIG_MAX_ANGLE / 360, 350 * TRIG_MAX_ANGLE / 360)] := by decide
  have midnight_fills : trig_arcs (hour_degree_of 0)
      = [(10 * TRIG_MAX_ANGLE / 360, 350 * TRIG_MAX_ANGLE / 360)] := by decide
  have same : hour_update_proc PBL_ROUND sdk bounds (tick_handler false hour tm_min s)
      = hour_update_proc PBL_ROUND sdk bounds (tick_handler false (hour % 12) tm_min2 s) := by
    show _ ++ _ ++ hour_ring bounds (hour_degree_of hour)
      = _ ++ _ ++ hour_ring bounds (hour_degree_of (hour % 12))
    unfold hour_ring
    rw [key]
    rfl
  refine ⟨key, same, noon, midnight, ?_, by rw [same], ?_, ?_⟩
  · rw [ring_fills_hour_update_proc, hour_after_tick]
    exact trig_arcs_hour hour h0 h1
  · rw [ring_fills_hour_update_proc, hour_after_tick]
    exact noon_fills
  · rw [ring_fills_hour_update_proc, hour_after_tick]
    exact midnight_fills

/-- Claim C9 at hour 12: the arcs are those of hour 0, and the black radial
fill drawn is the one from 1820 to 63715 in angle units, the arc [10, 350]. -/
theorem hour_ring_mod_12_witness :
    (0 : Int) ≤ 12 ∧ (12 : Int) ≤ 23
      ∧ ring_arcs (tick_handler false 12 30 State.initial).s_hour_degree
        = ring_arcs (tick_handler false 0 45 State.initial).s_hour_degree
      ∧ ring_fills (hour_update_proc true
            ⟨fun r _ => r, fun r _ _ => r.origin, fun r _ _ _ => r, fun _ => 0⟩
            ⟨⟨0, 0⟩, ⟨180, 180⟩⟩ (tick_handler false 12 30 State.initial))
          = [(1820, 63715)] :=
  ⟨by decide, by decide,
    (hour_ring_mod_12 12 (by decide) (by decide) 30 45 State.initial true
      ⟨fun r _ => r, fun r _ _ => r.origin, fun r _ _ _ => r, fun _ => 0⟩
      ⟨⟨0, 0⟩, ⟨180, 180⟩⟩).1,
    ((hour_ring_mod_12 12 (by decide) (by decide) 30 45 State.initial true
      ⟨fun r _ => r, fun r _ _ => r.origin, fun r _ _ _ => r, fun _ => 0⟩
      ⟨⟨0, 0⟩, ⟨180, 180⟩⟩).2.2.2.2.1).trans (by decide)⟩

/-- Claim C10: after the non-DEMO `tick_handler` ran with an hour in [0,23],
`hour_update_proc` draws the numerals "1" to "12", numeral `j` in the box the
platform centres at the angle `TRIG_MAX_ANGLE * j / 12`, and draws as black
radial fills the arcs of that hour with ends `d * TRIG_MAX_ANGLE / 360`.
Among the twelve labels exactly the 12-hour label of the hour has its angle,
reduced modulo `TRIG_MAX_ANGLE`, outside every one of those drawn arcs, end
points included: it lies strictly inside the gap, and no other label does. -/
theorem label_in_gap (hour : Int) (h0 : 0 ≤ hour) (h1 : hour ≤ 23)
    (tm_min : Int) (s : State) (PBL_ROUND : Bool) (sdk : Sdk) (bounds : GRect)
    (j : Int) (hj0 : 1 ≤ j) (hj1 : j ≤ 12) :
    text_calls (hour_update_proc PBL_ROUND sdk bounds (tick_handler false hour tm_min s))
        = ([(1, "1"), (2, "2"), (3, "3"), (4, "4"), (5, "5"), (6, "6"), (7, "7"), (8, "8"),
            (9, "9"), (10, "10"), (11, "11"), (12, "12")] : List (Int × String)).map
            (fun label =>
              (label.2,
                sdk.grect_centered_from_polar
                  (sdk.grect_crop bounds (if PBL_ROUND then 15 else 10))
                  GOvalScaleMode.GOvalScaleModeFitCircle
                  (TRIG_MAX_ANGLE * label.1 / 12) { w := 25, h := 25 }))
      ∧ ring_fills (hour_update_proc PBL_ROUND sdk bounds (tick_handler false hour tm_min s))
        = to_trig (if hour % 12 = 0 then [(10, 350)]
            else [(0, (hour % 12) * 30 - 10), ((hour % 12) * 30 + 10, 360)])
      ∧ label_angle j = TRIG_MAX_ANGLE * j / 12
      ∧ (¬ trig_covers
            (ring_fills
              (hour_update_proc PBL_ROUND sdk bounds (tick_handler false hour tm_min s)))
            (TRIG_MAX_ANGLE * j / 12 % TRIG_MAX_ANGLE)
          ↔ j = label_of_hour hour)
      ∧ (¬ trig_covers (trig_arcs (tick_handler false hour tm_min s).s_hour_degree)
            (label_angle j % TRIG_MAX_ANGLE)
          ↔ j = label_of_hour hour) := by
  have hl : label_angle j = TRIG_MAX_ANGLE * j / 12 := by
    interval_cases j <;> decide
  have hgap : ¬ trig_covers (trig_arcs (hour_degree_of hour)) (label_angle j % TRIG_MAX_ANGLE)
      ↔ j = label_of_hour hour := by
    interval_cases hour <;> interval_cases j <;> decide
  refine ⟨?_, ?_, hl, ?_, ?_⟩
  · rw [text_calls_hour_update_proc]
  · rw [ring_fills_hour_update_proc, hour_after_tick]
    exact trig_arcs_hour hour h0 h1
  · rw [ring_fills_hour_update_proc, hour_after_tick, ← hl]
    exact hgap
  · rw [hour_after_tick]
    exact hgap

/-- Claim C10 at 15:00: the angle 16384 of label 3 is covered by neither of
the two arcs drawn, from 0 to 14563 and from 18204 to 65536. -/
theorem label_in_gap_witness :
    (0 : Int) ≤ 15 ∧ (15 : Int) ≤ 23 ∧ (1 : Int) ≤ 3 ∧ (3 : Int) ≤ 12
      ∧ ring_fills (hour_update_proc true
            ⟨fun r _ => r, fun r _ _ => r.origin, fun r _ _ _ => r, fun _ => 0⟩
            ⟨⟨0, 0⟩, ⟨180, 180⟩⟩ (tick_handler false 15 0 State.initial))
          = [(0, 14563), (18204, 65536)]
      ∧ ¬ trig_covers
          (ring_fills (hour_update_proc true
            ⟨fun r _ => r, fun r _ _ => r.origin, fun r _ _ _ => r, fun _ => 0⟩
            ⟨⟨0, 0⟩, ⟨180, 180⟩⟩ (tick_handler false 15 0 State.initial)))
          (16384 % TRIG_MAX_ANGLE) :=
  ⟨by decide, by decide, by decide, by decide,
    ((label_in_gap 15 (by decide) (by decide) 0 State.initial true
      ⟨fun r _ => r, fun r _ _ => r.origin, fun r _ _ _ => r, fun _ => 0⟩
      ⟨⟨0, 0⟩, ⟨180, 180⟩⟩ 3 (by decide) (by decide)).2.1).trans (by decide),
    ((label_in_gap 15 (by decide) (by decide) 0 State.initial true
      ⟨fun r _ => r, fun r _ _ => r.origin, fun r _ _ _ => r, fun _ => 0⟩
      ⟨⟨0, 0⟩, ⟨180, 180⟩⟩ 3 (by decide) (by decide)).2.2.2.1).2 (by decide)⟩

/-! ## End to end -/

/-- Claim C4: at hour 11, minute 10 the non-DEMO `tick_handler` yields
`s_hour_degree = 330` and `s_min_angle = TRIG_MAX_ANGLE * 10 / 60 = 10922`;
`hour_update_proc` then draws exactly the two ring arcs [0, 320] and
[340, 360]; `minute_update_proc` draws both strokes of the hand to
`gpoint_from_polar(bounds, s_min_angle)` for that angle; and the DEMO build
stores the same two values for every input time. -/
theorem end_to_end_11_10 (s : State) (PBL_ROUND PBL_COLOR : Bool) (sdk : Sdk)
    (cfg : Settings) (bounds hand_bounds : GRect) :
    (tick_handler false 11 10 s).s_hour_degree = 330
      ∧ (tick_handler false 11 10 s).s_min_angle = TRIG_MAX_ANGLE * 10 / 60
      ∧ (tick_handler false 11 10 s).s_min_angle = 10922
      ∧ ring_arcs (tick_handler false 11 10 s).s_hour_degree = [(0, 320), (340, 360)]
      ∧ hour_update_proc PBL_ROUND sdk bounds (tick_handler false 11 10 s)
          = dial_background PBL_ROUND sdk bounds
            ++ dial_labels PBL_ROUND sdk bounds s.s_font
            ++ [DrawCmd.graphics_context_set_fill_color GColor.GColorBlack,
                DrawCmd.graphics_fill_radial bounds GOvalScaleMode.GOvalScaleModeFitCircle
                  (half_width bounds) (DEG_TO_TRIGANGLE 0) (DEG_TO_TRIGANGLE 320),
                DrawCmd.graphics_fill_radial bounds GOvalScaleMode.GOvalScaleModeFitCircle
                  (half_width bounds) (DEG_TO_TRIGANGLE 340) (DEG_TO_TRIGANGLE 360)]
      ∧ minute_update_proc PBL_COLOR sdk cfg hand_bounds (tick_handler false 11 10 s)
          = [DrawCmd.graphics_context_set_stroke_color GColor.GColorBlack,
             DrawCmd.graphics_context_set_stroke_width 6,
             DrawCmd.graphics_draw_line (grect_center_point hand_bounds)
               (sdk.gpoint_from_polar hand_bounds GOvalScaleMode.GOvalScaleModeFitCircle
                 (TRIG_MAX_ANGLE * 10 / 60)),
             DrawCmd.graphics_context_set_stroke_color (accent_color PBL_COLOR cfg),
             DrawCmd.graphics_context_set_stroke_width 4,
             DrawCmd.graphics_draw_line (grect_center_point hand_bounds)
               (sdk.gpoint_from_polar hand_bounds GOvalScaleMode.GOvalScaleModeFitCircle
                 (TRIG_MAX_ANGLE * 10 / 60))]
      ∧ (∀ (tm_hour tm_min : Int) (s2 : State),
          (tick_handler true tm_hour tm_min s2).s_hour_degree
              = (tick_handler false 11 10 s).s_hour_degree
            ∧ (tick_handler true tm_hour tm_min s2).s_min_angle
              = (tick_handler false 11 10 s).s_min_angle) := by
  have hh : (tick_handler false 11 10 s).s_hour_degree = 330 := by
    rw [hour_after_tick]; decide
  have hm : (tick_handler false 11 10 s).s_min_angle = 10922 := by
    rw [min_after_tick]; decide
  have ha : TRIG_MAX_ANGLE * 10 / 60 = 10922 := by decide
  have hr : ring_arcs 330 = [(0, 320), (340, 360)] := by decide
  refine ⟨hh, hm.trans ha.symm, hm, by rw [hh, hr], ?_, ?_, ?_⟩
  · show _ ++ _ ++ hour_ring bounds (tick_handler false 11 10 s).s_hour_degree = _
    rw [hh, hour_ring, hr]
    rfl
  · unfold minute_update_proc
    rw [hm, ha]
  · intro tm_hour tm_min s2
    rw [hh, hm]
    have d1 : toUint16 (11 * 30) = 330 := by decide
    have d2 : toInt32 (Int.tdiv (toInt32 (TRIG_MAX_ANGLE * 10)) 60) = 10922 := by decide
    exact ⟨d1, d2⟩

/-! ## Geometry -/

/-- Claim C5: `grect_from_point(point, size)` has exactly the size `size`, and its
centre `(origin.x + size.w / 2, origin.y + size.h / 2)` (truncating division)
is `point`, for every point with `int16_t` coordinates and every size; when
`w` and `h` are non-negative and the origin does not overflow, this holds of
the sum taken without any wrap-around as well. -/
theorem grect_from_point_centered (point : GPoint) (size : GSize)
    (hx : InInt16 point.x) (hy : InInt16 point.y) :
    (grect_from_point point size).size = size
      ∧ grect_center_point (grect_from_point point size) = point
      ∧ (0 ≤ size.w → 0 ≤ size.h → InInt16 (point.x - size.w / 2) →
          InInt16 (point.y - size.h / 2) →
          (grect_from_point point size).origin.x + size.w / 2 = point.x
            ∧ (grect_from_point point size).origin.y + size.h / 2 = point.y) := by
  obtain ⟨px, py⟩ := point
  obtain ⟨w, h⟩ := size
  unfold InInt16 at hx hy
  simp only at hx hy
  refine ⟨rfl, ?_, ?_⟩
  · simp only [grect_center_point, grect_from_point, toInt16, GPoint.mk.injEq]
    generalize Int.tdiv w 2 = a
    generalize Int.tdiv h 2 = b
    constructor <;> omega
  · intro hw hh ox oy
    unfold InInt16 at ox oy
    simp only at ox oy
    simp only [grect_from_point, toInt16, Int.tdiv_eq_ediv hw (by decide : (0 : Int) ≤ 2),
      Int.tdiv_eq_ediv hh (by decide : (0 : Int) ≤ 2)]
    constructor <;> omega

/-- Claim C5 at the centre (72, 84) of a 144 x 168 display with an 11 x 11 size. -/
theorem grect_from_point_centered_witness :
    InInt16 72 ∧ InInt16 84
      ∧ grect_center_point (grect_from_point ⟨72, 84⟩ ⟨11, 11⟩) = ⟨72, 84⟩
      ∧ grect_from_point ⟨72, 84⟩ ⟨11, 11⟩ = ⟨⟨67, 79⟩, ⟨11, 11⟩⟩ :=
  ⟨by decide, by decide,
    (grect_from_point_centered ⟨72, 84⟩ ⟨11, 11⟩ (by decide) (by decide)).2.1, by decide⟩

/-- Claim C8: `center_update_proc` fills the hub over the full layer bounds and
after that the dot over `grect_from_point(centre of the bounds, 5 x 5)`; the
hub layer `window_load` creates has bounds of origin (0, 0) and size 11 x 11,
for which the dot is the rectangle of origin (3, 3) and size 5 x 5, with a
margin of 3 pixels to the hub on each of the four sides. -/
theorem center_update_proc_hub_dot (PBL_COLOR : Bool) (cfg : Settings)
    (bounds root_bounds : GRect) :
    center_update_proc PBL_COLOR cfg bounds
        = [DrawCmd.graphics_context_set_fill_color (accent_color PBL_COLOR cfg),
           DrawCmd.graphics_fill_radial bounds GOvalScaleMode.GOvalScaleModeFitCircle
             (toUint16 bounds.size.w) 0 (DEG_TO_TRIGANGLE 360),
           DrawCmd.graphics_context_set_fill_color GColor.GColorBlack,
           DrawCmd.graphics_fill_radial
             (grect_from_point (grect_center_point bounds) ⟨5, 5⟩)
             GOvalScaleMode.GOvalScaleModeFitCircle 5 0 (DEG_TO_TRIGANGLE 360)]
      ∧ layer_bounds_of_frame (center_layer_frame root_bounds) = ⟨⟨0, 0⟩, ⟨11, 11⟩⟩
      ∧ center_dot (layer_bounds_of_frame (center_layer_frame root_bounds))
          = ⟨⟨3, 3⟩, ⟨5, 5⟩⟩
      ∧ (center_dot ⟨⟨0, 0⟩, ⟨11, 11⟩⟩).origin.x - 0 = 3
      ∧ (center_dot ⟨⟨0, 0⟩, ⟨11, 11⟩⟩).origin.y - 0 = 3
      ∧ (0 + 11) - ((center_dot ⟨⟨0, 0⟩, ⟨11, 11⟩⟩).origin.x
          + (center_dot ⟨⟨0, 0⟩, ⟨11, 11⟩⟩).size.w) = 3
      ∧ (0 + 11) - ((center_dot ⟨⟨0, 0⟩, ⟨11, 11⟩⟩).origin.y
          + (center_dot ⟨⟨0, 0⟩, ⟨11, 11⟩⟩).size.h) = 3 := by
  have hl : layer_bounds_of_frame (center_layer_frame root_bounds) = ⟨⟨0, 0⟩, ⟨11, 11⟩⟩ := rfl
  refine ⟨rfl, hl, ?_, by decide, by decide, by decide, by decide⟩
  rw [hl]
  decide

/-! ## Settings -/

/-- Claim C6: every run of `settings_handler`, whatever the state before it, logs
exactly one `connection_vibes_set_state` call, with `atoi` of
`CONNECTION_VIBE`, exactly one `hourly_vibes_set_enabled` call, with the
current `HOURLY_VIBE`, and exactly one redraw request, which comes last. An
event with `HOURLY_VIBE` false followed by one with it true gives the enable
calls false, true in this order, so exactly one call with true; two events
with the same value give two calls with that value. -/
theorem settings_handler_reapplies (PBL_HEALTH : Bool) (sdk : Sdk) (cfg cfg2 : Settings)
    (s : State) (v : Bool) :
    (new_calls s (settings_handler PBL_HEALTH sdk cfg s)).filter Call.is_set_state
        = [Call.connection_vibes_set_state (sdk.atoi cfg.CONNECTION_VIBE)]
      ∧ (new_calls s (settings_handler PBL_HEALTH sdk cfg s)).filter Call.is_set_enabled
        = [Call.hourly_vibes_set_enabled cfg.HOURLY_VIBE]
      ∧ (new_calls s (settings_handler PBL_HEALTH sdk cfg s)).filter Call.is_mark_dirty
        = [Call.layer_mark_dirty_root]
      ∧ (new_calls s (settings_handler PBL_HEALTH sdk cfg s)).getLast?
        = some Call.layer_mark_dirty_root
      ∧ (settings_handler PBL_HEALTH sdk cfg s).calls
        = s.calls ++ new_calls s (settings_handler PBL_HEALTH sdk cfg s)
      ∧ (new_calls s
            (settings_handler PBL_HEALTH sdk { cfg2 with HOURLY_VIBE := true }
              (settings_handler PBL_HEALTH sdk { cfg with HOURLY_VIBE := false } s))).filter
          Call.is_set_enabled
        = [Call.hourly_vibes_set_enabled false, Call.hourly_vibes_set_enabled true]
      ∧ (new_calls s
            (settings_handler PBL_HEALTH sdk { cfg2 with HOURLY_VIBE := true }
              (settings_handler PBL_HEALTH sdk { cfg with HOURLY_VIBE := false } s))).count
          (Call.hourly_vibes_set_enabled true) = 1
      ∧ (new_calls s
            (settings_handler PBL_HEALTH sdk { cfg2 with HOURLY_VIBE := v }
              (settings_handler PBL_HEALTH sdk { cfg with HOURLY_VIBE := v } s))).filter
          Call.is_set_enabled
        = [Call.hourly_vibes_set_enabled v, Call.hourly_vibes_set_enabled v] := by
  have h1 : ∀ (c : Settings) (t : State),
      new_calls t (settings_handler PBL_HEALTH sdk c t) = settings_calls PBL_HEALTH sdk c := by
    intro c t
    simp [new_calls, settings_handler]
  have h2 : ∀ (c c2 : Settings) (t : State),
      new_calls t (settings_handler PBL_HEALTH sdk c2 (settings_handler PBL_HEALTH sdk c t))
        = settings_calls PBL_HEALTH sdk c ++ settings_calls PBL_HEALTH sdk c2 := by
    intro c c2 t
    simp [new_calls, settings_handler]
  rw [h1, h2, h2]
  cases PBL_HEALTH <;> cases v <;>
    simp [settings_calls, Call.is_set_state, Call.is_set_enabled, Call.is_mark_dirty,
      List.filter, List.count_cons, settings_handler]

/-! ## Idempotence -/

/-- Claim C7: for every hour and minute and every prior state, running
`tick_handler` twice with the same hour and minute leaves `s_hour_degree` and
`s_min_angle` as one run leaves them; the two values do not depend on the
prior state; and `hour_update_proc` and `minute_update_proc`, for fixed bounds
and settings, issue the same calls after one update and after two. -/
theorem tick_handler_idempotent (DEMO : Bool) (hour minute : Int) (s other : State)
    (PBL_ROUND PBL_COLOR : Bool) (sdk : Sdk) (cfg : Settings) (bounds hand_bounds : GRect) :
    (tick_handler DEMO hour minute (tick_handler DEMO hour minute s)).s_hour_degree
        = (tick_handler DEMO hour minute s).s_hour_degree
      ∧ (tick_handler DEMO hour minute (tick_handler DEMO hour minute s)).s_min_angle
        = (tick_handler DEMO hour minute s).s_min_angle
      ∧ (tick_handler DEMO hour minute other).s_hour_degree
        = (tick_handler DEMO hour minute s).s_hour_degree
      ∧ (tick_handler DEMO hour minute other).s_min_angle
        = (tick_handler DEMO hour minute s).s_min_angle
      ∧ hour_update_proc PBL_ROUND sdk bounds
          (tick_handler DEMO hour minute (tick_handler DEMO hour minute s))
        = hour_update_proc PBL_ROUND sdk bounds (tick_handler DEMO hour minute s)
      ∧ minute_update_proc PBL_COLOR sdk cfg hand_bounds
          (tick_handler DEMO hour minute (tick_handler DEMO hour minute s))
        = minute_update_proc PBL_COLOR sdk cfg hand_bounds (tick_handler DEMO hour minute s) :=
  ⟨rfl, rfl, rfl, rfl, rfl, rfl⟩

end Slice
